import Mathlib

/-!
Shallow embedding of `src/week_1/faq-generator/src/validators.py`
(`SchemaValidator`): the multi-pass FAQPage schema validator.

Python values that can appear in a decoded JSON-LD document are modelled by
`PyVal`; dictionaries are association lists (Python dict keys are unique, so
first-match lookup agrees with dict lookup).  Python operations that can raise
(`len`, iteration, `.split`, `.lower`, `set(...)` on unhashable values,
attribute access on a non-dict) are modelled in `Except String`; the carried
string stands for the Python exception's message (abbreviated — no claim
depends on the message text, only on the fact that an exception is raised and
on the `"Validation error: "` prefix the orchestrator adds when catching).
-/

namespace FaqVal

/-- A decoded Python/JSON value as the validator sees it. -/
inductive PyVal where
  | none
  | bool (b : Bool)
  | int (n : Int)
  | str (s : String)
  | list (xs : List PyVal)
  | dict (fields : List (String × PyVal))

/-- A Python dictionary with string keys, as an association list. -/
def PyDict := List (String × PyVal)

/-- Python `key in d` / `d[key]` lookup (first match; dict keys are unique). -/
def pyLookup : PyDict → String → Option PyVal
  | [], _ => Option.none
  | (k, v) :: rest, key => if k = key then some v else pyLookup rest key

/-- Python `d.get(key, default)`. -/
def pyGet (d : PyDict) (key : String) (default : PyVal) : PyVal :=
  (pyLookup d key).getD default

/-- Python `v == s` for a string literal `s`: true only for an equal string
(no non-string value compares equal to a string in Python). -/
def PyVal.eqStr : PyVal → String → Bool
  | .str s, t => s = t
  | _, _ => false

/-- Python truthiness (`if v:` / `if not v:`). -/
def PyVal.truthy : PyVal → Bool
  | .none => false
  | .bool b => b
  | .int n => n != 0
  | .str s => s != ""
  | .list xs => !xs.isEmpty
  | .dict fs => !fs.isEmpty

/-- Whether the value is a Python mapping (`isinstance(v, dict)`). -/
def PyVal.isDict : PyVal → Bool
  | .dict _ => true
  | _ => false

/-- Python `len(v)`: defined on strings, lists and dicts, raises `TypeError`
elsewhere. -/
def pyLen : PyVal → Except String Nat
  | .str s => .ok s.length
  | .list xs => .ok xs.length
  | .dict fs => .ok fs.length
  | _ => .error "TypeError: object has no len()"

/-- Python iteration (`for x in v`): lists yield their elements, strings their
one-character substrings, dicts their keys; other values raise `TypeError`. -/
def pyIter : PyVal → Except String (List PyVal)
  | .list xs => .ok xs
  | .str s => .ok (s.data.map fun c => PyVal.str c.toString)
  | .dict fs => .ok (fs.map fun kv => PyVal.str kv.1)
  | _ => .error "TypeError: object is not iterable"

/-- Helper for `strSplit`: walks the character list, accumulating the current
token in reverse; whitespace ends a token, empty tokens are dropped. -/
def splitWsAux : List Char → List Char → List String
  | [], acc => if acc.isEmpty then [] else [String.mk acc.reverse]
  | c :: cs, acc =>
      if c.isWhitespace then
        if acc.isEmpty then splitWsAux cs []
        else String.mk acc.reverse :: splitWsAux cs []
      else splitWsAux cs (c :: acc)

/-- Python `s.split()` on a string: split on whitespace runs, dropping empty
tokens (`Char.isWhitespace` covers the ASCII whitespace that occurs here). -/
def strSplit (s : String) : List String := splitWsAux s.data []

/-- Python `v.split()`; raises `AttributeError` on a non-string. -/
def pySplit : PyVal → Except String (List String)
  | .str s => .ok (strSplit s)
  | _ => .error "AttributeError: object has no attribute split"

/-- Python `s.strip()`: leading and trailing whitespace removed. -/
def pyStrip (s : String) : String :=
  String.mk (((s.data.dropWhile Char.isWhitespace).reverse.dropWhile
    Char.isWhitespace).reverse)

/-- Python `s.lower()` on a string (`Char.toLower`, adequate for the ASCII
text involved). -/
def strLower (s : String) : String := String.mk (s.data.map Char.toLower)

/-- Python `s.startswith(pre)`. -/
def strStartsWith (s pre : String) : Bool := pre.data.isPrefixOf s.data

/-- Python `v.lower()`; raises on a non-string. -/
def pyLower : PyVal → Except String String
  | .str s => .ok (strLower s)
  | _ => .error "AttributeError: object has no attribute lower"

/-- Python hashability: of the shapes in `PyVal`, lists and dicts are
unhashable (`set(...)` raises `TypeError` on them). -/
def pyHashable : PyVal → Bool
  | .list _ => false
  | .dict _ => false
  | _ => true

/-- Python `==` between hashable values (the only place the validator compares
values of unknown shape is inside `set(...)`, which raises on unhashable
members first, so the list/dict branches are never reached; they are given the
constant `false`).  Note Python's `True == 1` and `False == 0`. -/
def pyEq : PyVal → PyVal → Bool
  | .none, .none => true
  | .bool x, .bool y => x = y
  | .bool x, .int n => (if x then (1 : Int) else 0) = n
  | .int n, .bool x => n = (if x then (1 : Int) else 0)
  | .int m, .int n => m = n
  | .str s, .str t => s = t
  | _, _ => false

/-- The number of `pyEq`-distinct values in a list: `len(set(l))` once every
member is hashable. -/
def countDistinct : List PyVal → Nat
  | [] => 0
  | v :: rest => if rest.any (pyEq v) then countDistinct rest else countDistinct rest + 1

/-- Python `len(set(l))`: raises `TypeError` when a member is unhashable. -/
def pySetLen (l : List PyVal) : Except String Nat :=
  if l.all pyHashable then .ok (countDistinct l) else .error "TypeError: unhashable type"

/-- The `"Question <index>: <tail>"` prefix used by every per-entity message. -/
def qmsg (index : Nat) (tail : String) : String :=
  ("Question " ++ toString index ++ ": ") ++ tail

/-- A per-pass partial result carrying issues and warnings
(`_validate_question_entity` / entity loop of `_validate_structure`). -/
structure PassSW where
  issues : List String
  warnings : List String
deriving DecidableEq

/-- Lines 126–129: the required-field loop of `_validate_question_entity`. -/
def missingFieldIssues (fields : PyDict) (index : Nat) : List String :=
  (["@type", "name", "acceptedAnswer"].filter fun f => (pyLookup fields f).isNone).map
    fun f => qmsg index ("Missing required field '" ++ f ++ "'")

/-- Lines 131–133: `entity.get('@type') != 'Question'` (note: fires also when
`@type` is absent, because `get` then returns `None`). -/
def entityTypeIssues (fields : PyDict) (index : Nat) : List String :=
  if PyVal.eqStr (pyGet fields "@type" PyVal.none) "Question" then []
  else [qmsg index "@type must be 'Question'"]

/-- Lines 135–143: the `name` block of `_validate_question_entity`
(`not name.strip()` is `pyStrip s = ""` for a string). -/
def nameCheck (fields : PyDict) (index : Nat) : PassSW :=
  match pyLookup fields "name" with
  | Option.none => ⟨[], []⟩
  | some (PyVal.str s) =>
      if pyStrip s = "" then ⟨[qmsg index "'name' must be a non-empty string"], []⟩
      else if s.length < 10 then ⟨[], [qmsg index "Question is very short"]⟩
      else if s.length > 200 then ⟨[], [qmsg index "Question is very long"]⟩
      else ⟨[], []⟩
  | some _ => ⟨[qmsg index "'name' must be a non-empty string"], []⟩

/-- Lines 145–163: the `acceptedAnswer` block of `_validate_question_entity`. -/
def answerCheck (fields : PyDict) (index : Nat) : PassSW :=
  match pyLookup fields "acceptedAnswer" with
  | Option.none => ⟨[], []⟩
  | some (PyVal.dict af) =>
      let typeIss :=
        if PyVal.eqStr (pyGet af "@type" PyVal.none) "Answer" then []
        else [qmsg index "acceptedAnswer @type must be 'Answer'"]
      match pyLookup af "text" with
      | Option.none => ⟨typeIss ++ [qmsg index "acceptedAnswer missing 'text' field"], []⟩
      | some (PyVal.str t) =>
          if pyStrip t = "" then ⟨typeIss ++ [qmsg index "acceptedAnswer text must be non-empty"], []⟩
          else if t.length < 20 then ⟨typeIss, [qmsg index "Answer is very short"]⟩
          else if t.length > 1000 then ⟨typeIss, [qmsg index "Answer is very long"]⟩
          else ⟨typeIss, []⟩
      | some _ => ⟨typeIss ++ [qmsg index "acceptedAnswer text must be non-empty"], []⟩
  | some _ => ⟨[qmsg index "acceptedAnswer must be a dictionary"], []⟩

/-- The body of `_validate_question_entity` for a mapping entity: issues in
source append order (missing-field loop, `@type`, `name`, `acceptedAnswer`),
warnings likewise (`name` then `acceptedAnswer`). -/
def questionEntityChecks (fields : PyDict) (index : Nat) : PassSW :=
  let nameR := nameCheck fields index
  let ansR := answerCheck fields index
  ⟨missingFieldIssues fields index ++ entityTypeIssues fields index
      ++ nameR.issues ++ ansR.issues,
    nameR.warnings ++ ansR.warnings⟩

/-- `_validate_question_entity(entity, index)` (lines 121–165).  A non-dict
entity raises: `field not in entity` is a `TypeError` for `None`/`bool`/`int`,
and `.get` is an `AttributeError` for `str`/`list`; either way the exception
escapes and the partially built local result is discarded. -/
def validate_question_entity (entity : PyVal) (index : Nat) : Except String PassSW :=
  match entity with
  | PyVal.dict fields => .ok (questionEntityChecks fields index)
  | PyVal.str _ => .error "AttributeError: str object has no attribute get"
  | PyVal.list _ => .error "AttributeError: list object has no attribute get"
  | PyVal.none => .error "TypeError: argument of type NoneType is not iterable"
  | PyVal.bool _ => .error "TypeError: argument of type bool is not iterable"
  | PyVal.int _ => .error "TypeError: argument of type int is not iterable"

/-- Lines 113–117: the entity loop of `_validate_structure`, folding each
entity's issues and warnings in order; the first raising entity aborts the
whole pass. -/
def validateEntities : List PyVal → Nat → Except String PassSW
  | [], _ => .ok ⟨[], []⟩
  | e :: rest, i =>
      match validate_question_entity e i with
      | .error m => .error m
      | .ok r =>
          match validateEntities rest (i + 1) with
          | .error m => .error m
          | .ok rs => .ok ⟨r.issues ++ rs.issues, r.warnings ++ rs.warnings⟩

/-- Result of `_validate_structure` (it returns `valid`, `issues`,
`warnings`). -/
structure StructResult where
  valid : Bool
  issues : List String
  warnings : List String
deriving DecidableEq

/-- Lines 87–92: the required top-level field loop. -/
def requiredFieldIssues (schema : PyDict) : List String :=
  (["@context", "@type", "mainEntity"].filter fun f => (pyLookup schema f).isNone).map
    fun f => "Missing required field: " ++ f

/-- Lines 94–96: the `@context` warning (only when the field is present). -/
def contextWarnings (schema : PyDict) : List String :=
  match pyLookup schema "@context" with
  | some v => if PyVal.eqStr v "https://schema.org" then [] else ["@context should be 'https://schema.org'"]
  | Option.none => []

/-- Lines 98–101: the `@type` issue (only when the field is present). -/
def pageTypeIssues (schema : PyDict) : List String :=
  match pyLookup schema "@type" with
  | some v => if PyVal.eqStr v "FAQPage" then [] else ["@type must be 'FAQPage'"]
  | Option.none => []

/-- `_validate_structure(schema)` (lines 79–119).  The `valid` flag is set to
`False` exactly alongside the missing-field, `@type`, and `mainEntity`-shape
issues (entity-level issues do not touch it; line 67 of the orchestrator
re-derives validity from `issues` anyway). -/
def validate_structure (schema : PyDict) : Except String StructResult :=
  let missing := requiredFieldIssues schema
  let tIss := pageTypeIssues schema
  let ctxW := contextWarnings schema
  let v0 := missing.isEmpty && tIss.isEmpty
  match pyLookup schema "mainEntity" with
  | Option.none => .ok ⟨v0, missing ++ tIss, ctxW⟩
  | some (PyVal.list []) => .ok ⟨false, missing ++ tIss ++ ["mainEntity cannot be empty"], ctxW⟩
  | some (PyVal.list es) =>
      match validateEntities es 0 with
      | .error m => .error m
      | .ok sub => .ok ⟨v0, missing ++ tIss ++ sub.issues, ctxW ++ sub.warnings⟩
  | some _ => .ok ⟨false, missing ++ tIss ++ ["mainEntity must be a list"], ctxW⟩

/-- Result of `_validate_content` (its `issues` list is created and never
appended to, so it is always `[]`; kept to mirror the source's dict). -/
structure ContentResult where
  issues : List String
  warnings : List String
  suggestions : List String
deriving DecidableEq

/-- Line 174: `[entity.get('name', '') for entity in main_entity if
isinstance(entity, dict)]` (the same comprehension recurs at line 221 of the
SEO pass). -/
def collectQuestions (entities : List PyVal) : List PyVal :=
  entities.filterMap fun e =>
    match e with
    | PyVal.dict fs => some (pyGet fs "name" (PyVal.str ""))
    | _ => Option.none

/-- Lines 180–184: the `question_words` accumulation.  The list itself is
never read afterwards, but building it calls `.lower()` on every present
`name` value, so a non-string `name` raises here. -/
def questionWords : List PyVal → Except String (List String)
  | [] => .ok []
  | e :: rest =>
      match e with
      | PyVal.dict fs =>
          match pyLookup fs "name" with
          | some v =>
              match pyLower v with
              | .error m => .error m
              | .ok lo =>
                  match questionWords rest with
                  | .error m => .error m
                  | .ok ws => .ok (strSplit lo ++ ws)
          | Option.none => questionWords rest
      | _ => questionWords rest

/-- Line 187: `[words[0] for words in [q.split() for q in questions if
q.split()]]` — the first whitespace token of each question that has one, in
its authored case; `q.split()` raises on a non-string question value. -/
def startersOf : List PyVal → Except String (List String)
  | [] => .ok []
  | q :: rest =>
      match pySplit q with
      | .error m => .error m
      | .ok toks =>
          match startersOf rest with
          | .error m => .error m
          | .ok ss =>
              match toks with
              | [] => .ok ss
              | t :: _ => .ok (t :: ss)

/-- The `text` value inspected by the answer-quality loop: present only when
the entity is a mapping whose `acceptedAnswer` is a mapping with a `text`
key (line 193–196's guards). -/
def answerTextOf (e : PyVal) : Option PyVal :=
  match e with
  | PyVal.dict fs =>
      match pyLookup fs "acceptedAnswer" with
      | some (PyVal.dict af) =>
          match pyLookup af "text" with
          | some tv => some tv
          | Option.none => Option.none
      | _ => Option.none
  | _ => Option.none

/-- Lines 192–198: the answer-quality loop (`enumerate`, message uses the
1-based position `i+1`); `len(text)` raises on an unsized `text` value. -/
def answerSuggestions : List PyVal → Nat → Except String (List String)
  | [], _ => .ok []
  | e :: rest, i =>
      match answerTextOf e with
      | some tv =>
          match pyLen tv with
          | .error m => .error m
          | .ok l =>
              match answerSuggestions rest (i + 1) with
              | .error m => .error m
              | .ok rs =>
                  if l < 50 then
                    .ok (qmsg (i + 1) "Consider expanding the answer for better value" :: rs)
                  else .ok rs
      | Option.none => answerSuggestions rest (i + 1)

/-- Lines 186–189: the question-starter diversity suggestion, gated on
`len(main_entity) >= 3`.  The source compares `len(set(starters)) <
len(starters) * 0.7` with the float literal `0.7`; for the integer operands
that occur this is equivalent to `10 * distinct < 7 * total` (the double
nearest to `n * 0.7` never differs from the rational `7n/10` by enough to move
an integer across the threshold), which is how it is written here. -/
def starterSuggestions (entities : List PyVal) (questions : List PyVal) :
    Except String (List String) :=
  if 3 ≤ entities.length then
    match questionWords entities with
    | .error m => .error m
    | .ok _ =>
        match startersOf questions with
        | .error m => .error m
        | .ok starters =>
            if 10 * starters.dedup.length < 7 * starters.length then
              .ok ["Consider varying question starters for better diversity"]
            else .ok []
  else .ok []

/-- `_validate_content(schema)` (lines 167–200).  `main_entity` is
`schema.get('mainEntity', [])`; the duplicate warning compares `len(set(questions))`
with `len(questions)`; the `len(main_entity) >= 3` gate sits inside
`starterSuggestions` as `entities.length` (`len` and iteration agree on every
iterable shape). -/
def validate_content (schema : PyDict) : Except String ContentResult :=
  match pyIter (pyGet schema "mainEntity" (PyVal.list [])) with
  | .error m => .error m
  | .ok entities =>
      match pySetLen (collectQuestions entities) with
      | .error m => .error m
      | .ok nset =>
          match pyLen (pyGet schema "mainEntity" (PyVal.list [])) with
          | .error m => .error m
          | .ok _ =>
              match starterSuggestions entities (collectQuestions entities) with
              | .error m => .error m
              | .ok sts =>
                  match answerSuggestions entities 0 with
                  | .error m => .error m
                  | .ok ans =>
                      .ok ⟨[],
                        if nset ≠ (collectQuestions entities).length
                        then ["Duplicate questions found"] else [],
                        sts ++ ans⟩

/-- Result of `_validate_seo_practices`. -/
structure SeoResult where
  warnings : List String
  suggestions : List String
deriving DecidableEq

/-- The six prefixes of line 224. -/
def commonPatterns : List String := ["what", "how", "when", "where", "why", "who"]

/-- Lines 223–227: `sum(1 for q in questions for pattern in common_patterns if
q.lower().startswith(pattern))`; `q.lower()` raises on a non-string. -/
def patternCount : List PyVal → Except String Nat
  | [] => .ok 0
  | q :: rest =>
      match pyLower q with
      | .error m => .error m
      | .ok lo =>
          match patternCount rest with
          | .error m => .error m
          | .ok c => .ok ((commonPatterns.filter fun p => strStartsWith lo p).length + c)

/-- `_validate_seo_practices(schema)` (lines 202–229).  The float comparison
`pattern_count < len(questions) * 0.5` is exact in binary floating point and
is written as `2 * count < len`. -/
def validate_seo_practices (schema : PyDict) : Except String SeoResult :=
  let metaSuggestions :=
    (if (pyLookup schema "name").isNone then ["Consider adding a 'name' field for the FAQ page"] else [])
      ++ (if (pyLookup schema "description").isNone then ["Consider adding a 'description' field for better SEO"] else [])
  let me := pyGet schema "mainEntity" (PyVal.list [])
  match pyLen me with
  | .error m => .error m
  | .ok n =>
      let countWarnings :=
        if n < 3 then ["FAQ pages should have at least 3 questions for best SEO results"]
        else if n > 10 then ["Consider limiting to 10 questions to avoid overwhelming users"]
        else []
      match pyIter me with
      | .error m => .error m
      | .ok entities =>
          let questions := collectQuestions entities
          if questions.isEmpty then .ok ⟨countWarnings, metaSuggestions⟩
          else
            match patternCount questions with
            | .error m => .error m
            | .ok c =>
                let patternSuggestions :=
                  if 2 * c < questions.length then
                    ["Consider using more common question patterns (What, How, When, etc.)"]
                  else []
                .ok ⟨countWarnings, metaSuggestions ++ patternSuggestions⟩

/-- The report of `validate_schema` (the source dict also carries a
`google_validation` key that this method always leaves at `None`). -/
structure Report where
  valid : Bool
  issues : List String
  warnings : List String
  suggestions : List String
deriving DecidableEq

/-- The first pass (if any) whose exception reaches the `except` of
`validate_schema`, with its message. -/
def validate_schema_raises (schema : PyDict) : Option String :=
  match validate_structure schema with
  | .error e => some e
  | .ok _ =>
      match validate_content schema with
      | .error e => some e
      | .ok _ =>
          match validate_seo_practices schema with
          | .error e => some e
          | .ok _ => Option.none

/-- `validate_schema(schema)` (lines 32–77).  `results.update(structure_results)`
replaces `valid`/`issues`/`warnings` wholesale; the later passes `extend` the
lists; line 67 re-derives `valid` from `issues`; the `except` block appends a
single `"Validation error: ..."` issue to whatever is already merged and sets
`valid` to `False` (a pass that raises discards its own partial lists). -/
def validate_schema (schema : PyDict) : Report :=
  let r0 : Report := ⟨true, [], [], []⟩
  match validate_structure schema with
  | .error e => { r0 with valid := false, issues := ["Validation error: " ++ e] }
  | .ok sr =>
      let r1 : Report := ⟨sr.valid, sr.issues, sr.warnings, []⟩
      match validate_content schema with
      | .error e => { r1 with valid := false, issues := r1.issues ++ ["Validation error: " ++ e] }
      | .ok cr =>
          let r2 : Report :=
            ⟨r1.valid, r1.issues ++ cr.issues, r1.warnings ++ cr.warnings, cr.suggestions⟩
          match validate_seo_practices schema with
          | .error e => { r2 with valid := false, issues := r2.issues ++ ["Validation error: " ++ e] }
          | .ok er =>
              let r3 : Report :=
                ⟨r2.valid, r2.issues, r2.warnings ++ er.warnings, r2.suggestions ++ er.suggestions⟩
              if r3.issues.isEmpty then r3 else { r3 with valid := false }

/-- The report of `validate_with_google`. -/
structure GoogleReport where
  valid : Bool
  issues : List String
  warnings : List String
  rich_results : Bool
deriving DecidableEq

/-- Lines 269–290: the per-entity Google check.  A non-mapping entity appends
one issue and continues; for a mapping, each failed check appends its own
issue.  `answer.get('text')` at line 288 is not guarded by `isinstance`, so a
present non-dict `acceptedAnswer` raises there, after the earlier issues of
this entity were already appended (the error carries them). -/
def googleEntityCheck (e : PyVal) (i : Nat) : Except (String × List String) (List String) :=
  match e with
  | PyVal.dict fs =>
      let typeIss :=
        if PyVal.eqStr (pyGet fs "@type" PyVal.none) "Question" then []
        else [s!"Question {i + 1} has invalid type"]
      let nameIss :=
        if (pyGet fs "name" PyVal.none).truthy then []
        else [s!"Question {i + 1} missing question text"]
      let answer := pyGet fs "acceptedAnswer" (PyVal.dict [])
      let ansIss :=
        match answer with
        | PyVal.dict af =>
            if PyVal.eqStr (pyGet af "@type" PyVal.none) "Answer" then []
            else [s!"Question {i + 1} has invalid answer format"]
        | _ => [s!"Question {i + 1} has invalid answer format"]
      match answer with
      | PyVal.dict af =>
          let textIss :=
            if (pyGet af "text" PyVal.none).truthy then []
            else [s!"Question {i + 1} missing answer text"]
          .ok (typeIss ++ nameIss ++ ansIss ++ textIss)
      | _ =>
          .error ("AttributeError: object has no attribute get", typeIss ++ nameIss ++ ansIss)
  | _ => .ok [s!"Question {i + 1} is not properly formatted"]

/-- The entity loop of `validate_with_google`, threading the `valid` flag
(set to `False` whenever an issue is appended) and the accumulated issues;
an exception carries the issues appended before the raise. -/
def googleLoop : List PyVal → Nat → Bool → List String → Except (String × List String) (Bool × List String)
  | [], _, v, iss => .ok (v, iss)
  | e :: rest, i, v, iss =>
      match googleEntityCheck e i with
      | .error (m, eIss) => .error (m, iss ++ eIss)
      | .ok eIss => googleLoop rest (i + 1) (v && eIss.isEmpty) (iss ++ eIss)

/-- `validate_with_google(schema)` (lines 231–307).  Note the two short-circuit
returns (wrong `@type`, empty `mainEntity`) and the `except` path leave
`rich_results` at its initial `True` and append no eligibility warning. -/
def validate_with_google (schema : PyDict) : GoogleReport :=
  if !PyVal.eqStr (pyGet schema "@type" PyVal.none) "FAQPage" then
    ⟨false, ["Schema type not supported for rich results"], [], true⟩
  else
    match pyLen (pyGet schema "mainEntity" (PyVal.list [])) with
    | .error e => ⟨false, ["Validation error: " ++ e], [], true⟩
    | .ok n =>
        if n < 1 then ⟨false, ["No questions found"], [], true⟩
        else
          match pyIter (pyGet schema "mainEntity" (PyVal.list [])) with
          | .error e => ⟨false, ["Validation error: " ++ e], [], true⟩
          | .ok entities =>
              match googleLoop entities 0 true [] with
              | .error (e, iss) =>
                  ⟨false, iss ++ ["Validation error: " ++ e], [], true⟩
              | .ok (v, iss) =>
                  if v && decide (3 ≤ n) then
                    ⟨v, iss, ["Schema is eligible for rich results"], true⟩
                  else
                    ⟨v, iss, ["Schema may not be eligible for rich results"], false⟩

/-- A fully valid Question entity, assembled from a question and answer. -/
def mkEntity (name answer : String) : PyVal :=
  PyVal.dict [("@type", PyVal.str "Question"), ("name", PyVal.str name),
    ("acceptedAnswer", PyVal.dict [("@type", PyVal.str "Answer"), ("text", PyVal.str answer)])]

/-- A document whose `mainEntity` holds one non-mapping element. -/
def exCrash : PyDict :=
  [("@context", PyVal.str "https://schema.org"), ("@type", PyVal.str "FAQPage"),
   ("mainEntity", PyVal.list [PyVal.int 5])]

/-- A document with two questions equal case-insensitively but not exactly. -/
def exDupCase : PyDict :=
  [("mainEntity", PyVal.list [PyVal.dict [("name", PyVal.str "What?")],
    PyVal.dict [("name", PyVal.str "what?")]])]

/-- Two entities with exactly equal question texts. -/
def exDupExactEntities : List PyVal :=
  [PyVal.dict [("name", PyVal.str "What are your hours?")],
   PyVal.dict [("name", PyVal.str "What are your hours?")]]

/-- A document with two exactly equal question texts. -/
def exDupExact : PyDict := [("mainEntity", PyVal.list exDupExactEntities)]

/-- The entity list of `exC6`: three entities, of which only two carry
question text. -/
def exC6Entities : List PyVal :=
  [PyVal.dict [("name", PyVal.str "What A")], PyVal.dict [("name", PyVal.str "What B")],
   PyVal.dict []]

/-- A document with three entities of which only two have question text. -/
def exC6 : PyDict := [("mainEntity", PyVal.list exC6Entities)]

/-- Modelled from the claim's wording (C6): the number of `mainEntity`
elements that "have question text", i.e. mappings carrying a `name` key. -/
def specEntitiesWithQuestionText (es : List PyVal) : Nat :=
  (es.filter fun e =>
    match e with
    | PyVal.dict fs => (pyLookup fs "name").isSome
    | _ => false).length

/-- Two fully valid entities. -/
def exGoogle2Entities : List PyVal :=
  [mkEntity "What services do you offer?"
     "We provide comprehensive dental care for all patients.",
   mkEntity "How do I schedule an appointment?"
     "You can schedule by calling our office today."]

/-- An otherwise fully valid document whose `mainEntity` has length 2. -/
def exGoogle2 : PyDict :=
  [("@context", PyVal.str "https://schema.org"), ("@type", PyVal.str "FAQPage"),
   ("mainEntity", PyVal.list exGoogle2Entities)]

/-- A document with two mapping entities, both lacking `name`. -/
def exNoNames : PyDict :=
  [("mainEntity", PyVal.list [PyVal.dict [], PyVal.dict []])]

/-- An `acceptedAnswer` mapping with a 30-character text. -/
def exC8Answer : PyDict :=
  [("@type", PyVal.str "Answer"), ("text", PyVal.str "A short answer, thirty chars.x")]

/-- Entity fields with a 5-character name and a 30-character answer text. -/
def exC8Fields : PyDict :=
  [("@type", PyVal.str "Question"), ("name", PyVal.str "What?"),
   ("acceptedAnswer", PyVal.dict exC8Answer)]

theorem strAppend_left_cancel {a b c : String} (h : a ++ b = a ++ c) : b = c := by
  have hd := congrArg String.data h
  rw [String.data_append, String.data_append] at hd
  exact String.ext (List.append_cancel_left hd)

theorem qmsg_ne_qmsg (i : Nat) {a b : String} (h : a ≠ b) : qmsg i a ≠ qmsg i b :=
  fun e => h (strAppend_left_cancel e)

theorem qmsg_data_head (i : Nat) (t : String) : (qmsg i t).data.head? = some 'Q' := by
  unfold qmsg
  rw [String.data_append, String.data_append, String.data_append]
  rfl

theorem qmsg_ne_of_head {s : String} (i : Nat) (t : String)
    (hs : s.data.head? ≠ some 'Q') : qmsg i t ≠ s := by
  intro h
  exact hs (h ▸ qmsg_data_head i t)

theorem countDistinct_le (l : List PyVal) : countDistinct l ≤ l.length := by
  induction l with
  | nil => simp [countDistinct]
  | cons v rest ih =>
      unfold countDistinct
      split
      · exact Nat.le_succ_of_le ih
      · exact Nat.succ_le_succ ih

theorem countDistinct_eq_length_iff (l : List PyVal) :
    countDistinct l = l.length ↔ l.Pairwise (fun u v => pyEq u v = false) := by
  induction l with
  | nil => simp [countDistinct]
  | cons v rest ih =>
      unfold countDistinct
      rcases hany : rest.any (pyEq v) with _ | _
      · simp only [hany, Bool.false_eq_true, if_false, List.length_cons, List.pairwise_cons]
        have hiff : countDistinct rest + 1 = rest.length + 1 ↔ countDistinct rest = rest.length :=
          Nat.add_right_cancel_iff
        rw [hiff, ih]
        have hall : ∀ u ∈ rest, pyEq v u = false := by
          intro u hu
          have := List.any_eq_false.mp hany u hu
          simpa using this
        constructor
        · exact fun hp => ⟨hall, hp⟩
        · exact fun hp => hp.2
      · simp only [hany, if_true, List.length_cons, List.pairwise_cons]
        constructor
        · intro hlen
          have := countDistinct_le rest
          omega
        · rintro ⟨hall, -⟩
          rcases List.any_eq_true.mp hany with ⟨u, hu, hequ⟩
          rw [hall u hu] at hequ
          cases hequ

theorem not_pairwise_of_two (f : PyVal → Option PyVal) :
    ∀ (es : List PyVal) (i j : Nat) (a b x y : PyVal), i < j →
      es.get? i = some a → es.get? j = some b →
      f a = some x → f b = some y → pyEq x y = true →
      ¬ (es.filterMap f).Pairwise (fun u v => pyEq u v = false) := by
  intro es
  induction es with
  | nil => intro i j a b x y _ hi _ _ _ _; cases hi
  | cons e rest ih =>
      intro i j a b x y hij hi hj hfa hfb hxy hp
      cases i with
      | zero =>
          have hea : e = a := by simpa using hi
          subst hea
          cases j with
          | zero => cases hij
          | succ j' =>
              have hjr : rest.get? j' = some b := by simpa using hj
              have hbmem : b ∈ rest := List.get?_mem hjr
              have hymem : y ∈ rest.filterMap f := List.mem_filterMap.mpr ⟨b, hbmem, hfb⟩
              rw [List.filterMap_cons, hfa] at hp
              have := (List.pairwise_cons.mp hp).1 y hymem
              rw [this] at hxy
              cases hxy
      | succ i' =>
          cases j with
          | zero => cases hij
          | succ j' =>
              have hir : rest.get? i' = some a := by simpa using hi
              have hjr : rest.get? j' = some b := by simpa using hj
              have hij' : i' < j' := Nat.lt_of_succ_lt_succ hij
              rw [List.filterMap_cons] at hp
              cases hfe : f e with
              | none =>
                  rw [hfe] at hp
                  exact ih i' j' a b x y hij' hir hjr hfa hfb hxy hp
              | some z =>
                  rw [hfe] at hp
                  exact ih i' j' a b x y hij' hir hjr hfa hfb hxy (List.pairwise_cons.mp hp).2

theorem answerSuggestions_shape :
    ∀ (es : List PyVal) (i : Nat) (ans : List String),
      answerSuggestions es i = Except.ok ans →
      ∀ m ∈ ans, ∃ j, m = qmsg j "Consider expanding the answer for better value" := by
  intro es
  induction es with
  | nil =>
      intro i ans h m hm
      unfold answerSuggestions at h
      cases h
      cases hm
  | cons e rest ih =>
      intro i ans h m hm
      unfold answerSuggestions at h
      split at h
      · split at h
        · cases h
        · split at h
          · cases h
          · rename_i xx rs hrest
            split at h
            · cases h
              rcases List.mem_cons.mp hm with hm | hm
              · exact ⟨i + 1, hm⟩
              · exact ih (i + 1) _ hrest m hm
            · cases h
              exact ih (i + 1) _ hrest m hm
      · exact ih (i + 1) ans h m hm

theorem nameCheck_issues_shape (fields : PyDict) (index : Nat) :
    ∀ m ∈ (nameCheck fields index).issues,
      m = qmsg index "'name' must be a non-empty string" := by
  intro m hm
  unfold nameCheck at hm
  repeat' split at hm
  all_goals simp at hm
  all_goals exact hm

theorem answerCheck_issues_shape (fields : PyDict) (index : Nat) :
    ∀ m ∈ (answerCheck fields index).issues, ∃ t,
      t ∈ (["acceptedAnswer @type must be 'Answer'", "acceptedAnswer missing 'text' field",
            "acceptedAnswer text must be non-empty", "acceptedAnswer must be a dictionary"] :
            List String) ∧ m = qmsg index t := by
  intro m hm
  unfold answerCheck at hm
  repeat' split at hm
  all_goals simp at hm
  all_goals first
    | exact ⟨_, by simp, hm⟩
    | (rcases hm with hm | hm <;> exact ⟨_, by simp, hm⟩)

theorem missingFieldIssues_shape (fields : PyDict) (index : Nat) :
    ∀ m ∈ missingFieldIssues fields index, ∃ f,
      f ∈ (["@type", "name", "acceptedAnswer"] : List String) ∧
      m = qmsg index ("Missing required field '" ++ f ++ "'") := by
  intro m hm
  unfold missingFieldIssues at hm
  rcases List.mem_map.mp hm with ⟨f, hf, hmf⟩
  exact ⟨f, List.mem_of_mem_filter hf, hmf.symm⟩

theorem validate_question_entity_nondict (e : PyVal) (i : Nat) (hd : e.isDict = false) :
    ∃ m, validate_question_entity e i = Except.error m := by
  cases e <;> first
    | exact ⟨_, rfl⟩
    | simp [PyVal.isDict] at hd

theorem validateEntities_error :
    ∀ (es : List PyVal) (i : Nat), (∃ e ∈ es, e.isDict = false) →
      ∃ m, validateEntities es i = Except.error m := by
  intro es
  induction es with
  | nil => rintro i ⟨e, he, -⟩; cases he
  | cons e rest ih =>
      rintro i ⟨b, hb, hbd⟩
      rcases List.mem_cons.mp hb with hb | hb
      · subst hb
        rcases validate_question_entity_nondict b i hbd with ⟨m, hm⟩
        exact ⟨m, by unfold validateEntities; rw [hm]⟩
      · unfold validateEntities
        rcases hfst : validate_question_entity e i with m | r
        · exact ⟨m, rfl⟩
        · rcases ih (i + 1) ⟨b, hb, hbd⟩ with ⟨m, hm⟩
          exact ⟨m, by rw [hm]⟩

theorem validate_structure_no_issues_valid (schema : PyDict) (sr : StructResult)
    (h : validate_structure schema = Except.ok sr) (hiss : sr.issues = []) :
    sr.valid = true := by
  unfold validate_structure at h
  repeat' split at h
  all_goals cases h
  all_goals simp_all

theorem validate_content_issues (schema : PyDict) (r : ContentResult)
    (h : validate_content schema = Except.ok r) : r.issues = [] := by
  unfold validate_content at h
  repeat' split at h
  all_goals cases h
  all_goals rfl

theorem pySetLen_ok {l : List PyVal} {n : Nat} (h : pySetLen l = Except.ok n) :
    n = countDistinct l := by
  unfold pySetLen at h
  split at h
  · cases h; rfl
  · cases h

theorem validate_content_spec (schema : PyDict) (es : List PyVal) (r : ContentResult)
    (hme : pyGet schema "mainEntity" (PyVal.list []) = PyVal.list es)
    (h : validate_content schema = Except.ok r) :
    r.warnings = (if countDistinct (collectQuestions es) ≠ (collectQuestions es).length
        then ["Duplicate questions found"] else []) ∧
    ∃ sts ans, starterSuggestions es (collectQuestions es) = Except.ok sts ∧
      answerSuggestions es 0 = Except.ok ans ∧ r.suggestions = sts ++ ans := by
  unfold validate_content at h
  rw [hme] at h
  simp only [pyIter] at h
  rcases hset : pySetLen (collectQuestions es) with m | nset
  · rw [hset] at h; cases h
  · rw [hset] at h
    have hn := pySetLen_ok hset
    subst hn
    simp only [pyLen] at h
    rcases hsts : starterSuggestions es (collectQuestions es) with m | sts
    · rw [hsts] at h; cases h
    · rw [hsts] at h
      rcases hans : answerSuggestions es 0 with m | ans
      · rw [hans] at h; cases h
      · rw [hans] at h
        cases h
        exact ⟨rfl, sts, ans, rfl, rfl, rfl⟩


/-- C2: for every input document, `validate_schema` returns a report whose
`valid` flag is true exactly when its `issues` list is empty: warnings and
suggestions never affect validity, and every pass's hard issues (or a caught
internal error's issue) force `valid = false`. -/
theorem C2_valid_iff_issues_empty (schema : PyDict) :
    (validate_schema schema).valid = (validate_schema schema).issues.isEmpty := by
  unfold validate_schema
  cases hs : validate_structure schema with
  | error e => simp
  | ok sr =>
      cases hc : validate_content schema with
      | error e => simp
      | ok cr =>
          cases hseo : validate_seo_practices schema with
          | error e => simp
          | ok er =>
              have hci : cr.issues = [] := validate_content_issues schema cr hc
              simp only [hci, List.append_nil]
              by_cases hiss : sr.issues = []
              · simp only [hiss, List.isEmpty_nil, if_pos]
                simp [validate_structure_no_issues_valid schema sr hs hiss]
              · have : sr.issues.isEmpty = false := by
                  cases hx : sr.issues with
                  | nil => exact absurd hx hiss
                  | cons a as => rfl
                simp [this]


/-- C1: validation is total — for every input document (including the empty
mapping, `None`-bearing fields, and non-mapping `mainEntity` elements)
`validate_schema` returns a report, and whenever a pass raises internally the
orchestrator's `except` converts the exception into a single appended
`"Validation error: ..."` hard issue and sets `valid` to `false`. -/
theorem C1_total_and_catches (schema : PyDict) :
    (∃ r : Report, validate_schema schema = r) ∧
    (∀ e, validate_schema_raises schema = some e →
      (validate_schema schema).valid = false ∧
      ∃ pre, (validate_schema schema).issues = pre ++ ["Validation error: " ++ e]) := by
  refine ⟨⟨_, rfl⟩, ?_⟩
  intro e he
  unfold validate_schema_raises at he
  unfold validate_schema
  cases hs : validate_structure schema with
  | error e1 =>
      rw [hs] at he
      cases he
      exact ⟨rfl, [], rfl⟩
  | ok sr =>
      rw [hs] at he
      cases hc : validate_content schema with
      | error e1 =>
          rw [hc] at he
          cases he
          exact ⟨rfl, sr.issues, rfl⟩
      | ok cr =>
          rw [hc] at he
          cases hseo : validate_seo_practices schema with
          | error e1 =>
              rw [hseo] at he
              cases he
              exact ⟨rfl, sr.issues ++ cr.issues, rfl⟩
          | ok er =>
              rw [hseo] at he
              cases he


theorem C1_total_and_catches_witness :
    (validate_schema exCrash).valid = false ∧
    ∃ pre, (validate_schema exCrash).issues =
      pre ++ ["Validation error: " ++ "TypeError: argument of type int is not iterable"] :=
  (C1_total_and_catches exCrash).2 "TypeError: argument of type int is not iterable" rfl

/-- C10: when `mainEntity` is absent, the SEO pass sees `schema.get('mainEntity', [])`
as the empty list, counts 0 entities, and warns about having fewer than 3
questions, while the structural pass independently records the missing
required field issue for `mainEntity`; both land in the final report. -/
theorem C10_absent_mainEntity (schema : PyDict)
    (hme : pyLookup schema "mainEntity" = Option.none) :
    "FAQ pages should have at least 3 questions for best SEO results"
        ∈ (validate_schema schema).warnings ∧
    "Missing required field: mainEntity" ∈ (validate_schema schema).issues := by
  have hget : pyGet schema "mainEntity" (PyVal.list []) = PyVal.list [] := by
    unfold pyGet; rw [hme]; rfl
  have hs : validate_structure schema = Except.ok
      ⟨(requiredFieldIssues schema).isEmpty && (pageTypeIssues schema).isEmpty,
       requiredFieldIssues schema ++ pageTypeIssues schema, contextWarnings schema⟩ := by
    unfold validate_structure; rw [hme]
  have hc : validate_content schema = Except.ok ⟨[], [], []⟩ := by
    unfold validate_content; rw [hget]; rfl
  have hseo : validate_seo_practices schema = Except.ok
      ⟨["FAQ pages should have at least 3 questions for best SEO results"],
       (if (pyLookup schema "name").isNone
        then ["Consider adding a 'name' field for the FAQ page"] else [])
         ++ (if (pyLookup schema "description").isNone
             then ["Consider adding a 'description' field for better SEO"] else [])⟩ := by
    unfold validate_seo_practices
    rw [hget]
    rfl
  have hmem : "Missing required field: mainEntity" ∈ requiredFieldIssues schema := by
    unfold requiredFieldIssues
    refine List.mem_map.mpr ⟨"mainEntity", ?_, by rfl⟩
    refine List.mem_filter.mpr ⟨by simp, ?_⟩
    rw [hme]
    rfl
  unfold validate_schema
  rw [hs, hc, hseo]
  dsimp only
  refine ⟨?_, ?_⟩
  · split <;> simp
  · split <;> (simp only [List.append_nil, List.mem_append]; exact Or.inl hmem)

theorem C10_absent_mainEntity_witness :
    "FAQ pages should have at least 3 questions for best SEO results"
        ∈ (validate_schema ([] : PyDict)).warnings ∧
    "Missing required field: mainEntity" ∈ (validate_schema ([] : PyDict)).issues :=
  C10_absent_mainEntity [] rfl


/-- C9: when two (or more) mapping entities in `mainEntity` lack `name`, the
content pass's comprehension collects the default `''` for each of them, the
two empty strings compare equal in `set(questions)`, and the "Duplicate
questions found" warning fires although no actual question text is
duplicated. -/
theorem C9_missing_names_duplicate (schema : PyDict) (es : List PyVal) (r : ContentResult)
    (i j : Nat) (fi fj : PyDict) (hij : i < j)
    (hi : es.get? i = some (PyVal.dict fi)) (hni : pyLookup fi "name" = Option.none)
    (hj : es.get? j = some (PyVal.dict fj)) (hnj : pyLookup fj "name" = Option.none)
    (hme : pyGet schema "mainEntity" (PyVal.list []) = PyVal.list es)
    (h : validate_content schema = Except.ok r) :
    "Duplicate questions found" ∈ r.warnings := by
  have hspec := validate_content_spec schema es r hme h
  have hfi : pyGet fi "name" (PyVal.str "") = PyVal.str "" := by
    unfold pyGet; rw [hni]; rfl
  have hfj : pyGet fj "name" (PyVal.str "") = PyVal.str "" := by
    unfold pyGet; rw [hnj]; rfl
  have hnp : ¬ (collectQuestions es).Pairwise (fun u v => pyEq u v = false) := by
    unfold collectQuestions
    refine not_pairwise_of_two _ es i j _ _ (PyVal.str "") (PyVal.str "")
      hij hi hj ?_ ?_ rfl
    · show some (pyGet fi "name" (PyVal.str "")) = some (PyVal.str "")
      rw [hfi]
    · show some (pyGet fj "name" (PyVal.str "")) = some (PyVal.str "")
      rw [hfj]
  have hne : countDistinct (collectQuestions es) ≠ (collectQuestions es).length := by
    intro hcd
    exact hnp ((countDistinct_eq_length_iff _).mp hcd)
  rw [hspec.1, if_pos hne]
  exact List.mem_singleton.mpr rfl

theorem C9_missing_names_duplicate_witness :
    "Duplicate questions found" ∈
      (⟨[], ["Duplicate questions found"], []⟩ : ContentResult).warnings :=
  C9_missing_names_duplicate exNoNames [PyVal.dict [], PyVal.dict []]
    ⟨[], ["Duplicate questions found"], []⟩ 0 1 [] [] (by decide)
    rfl rfl rfl rfl rfl rfl


/-- C3 counterexample: the source's duplicate check `len(questions) !=
len(set(questions))` is case-sensitive, so a document whose two question texts
are equal only case-insensitively ("What?" vs "what?") gets NO "Duplicate
questions found" warning, refuting the claim's "equal under case-insensitive
comparison" trigger. -/
theorem C3_counterexample :
    validate_content exDupCase = Except.ok ⟨[], [], []⟩ ∧
    "What?".data.map Char.toLower = "what?".data.map Char.toLower := ⟨rfl, by decide⟩

/-- C3 (amended): the "Duplicate questions found" warning is emitted iff some
two collected question values are equal under Python's exact (case-sensitive)
`==`, and it is emitted at most once per call. -/
theorem C3_duplicate_exact (schema : PyDict) (es : List PyVal) (r : ContentResult)
    (hme : pyGet schema "mainEntity" (PyVal.list []) = PyVal.list es)
    (h : validate_content schema = Except.ok r) :
    ("Duplicate questions found" ∈ r.warnings ↔
      ∃ i j : Fin (collectQuestions es).length, i < j ∧
        pyEq ((collectQuestions es).get i) ((collectQuestions es).get j) = true) ∧
    r.warnings.count "Duplicate questions found" ≤ 1 := by
  have hspec := validate_content_spec schema es r hme h
  constructor
  · rw [hspec.1]
    constructor
    · intro hmem
      by_cases hne : countDistinct (collectQuestions es) ≠ (collectQuestions es).length
      · have hnp : ¬ (collectQuestions es).Pairwise (fun u v => pyEq u v = false) := by
          intro hp
          exact hne ((countDistinct_eq_length_iff _).mpr hp)
        rw [List.pairwise_iff_get] at hnp
        push_neg at hnp
        rcases hnp with ⟨i, j, hij, hij2⟩
        exact ⟨i, j, hij, by simpa using hij2⟩
      · rw [if_neg hne] at hmem
        cases hmem
    · rintro ⟨i, j, hij, hpe⟩
      have hnp : ¬ (collectQuestions es).Pairwise (fun u v => pyEq u v = false) := by
        rw [List.pairwise_iff_get]
        intro hall
        rw [hall i j hij] at hpe
        cases hpe
      have hne : countDistinct (collectQuestions es) ≠ (collectQuestions es).length := by
        intro hcd
        exact hnp ((countDistinct_eq_length_iff _).mp hcd)
      rw [if_pos hne]
      exact List.mem_singleton.mpr rfl
  · rw [hspec.1]
    split <;> simp

theorem C3_duplicate_exact_witness :
    ("Duplicate questions found" ∈
        (⟨[], ["Duplicate questions found"], []⟩ : ContentResult).warnings ↔
      ∃ i j : Fin (collectQuestions exDupExactEntities).length, i < j ∧
        pyEq ((collectQuestions exDupExactEntities).get i)
          ((collectQuestions exDupExactEntities).get j) = true) ∧
    (⟨[], ["Duplicate questions found"], []⟩ : ContentResult).warnings.count
      "Duplicate questions found" ≤ 1 :=
  C3_duplicate_exact exDupExact exDupExactEntities
    ⟨[], ["Duplicate questions found"], []⟩ rfl rfl


/-- C6 counterexample: the diversity check is gated on `len(main_entity) >= 3`,
counting every element, not on "at least 3 entities have question text": a
document with three entities of which only two have question text still runs
the check and emits the suggestion, refuting the claim's trigger condition. -/
theorem C6_counterexample :
    specEntitiesWithQuestionText exC6Entities = 2 ∧
    validate_content exC6 = Except.ok
      ⟨[], [], ["Consider varying question starters for better diversity"]⟩ := ⟨rfl, rfl⟩

/-- C6 (amended): the question-starter diversity check runs exactly when
`mainEntity` has at least 3 elements of any shape; each collected question
with at least one whitespace token contributes its first token in its exact
authored case, and the suggestion is emitted iff the number of distinct
starters is strictly below 70% of the count of questions-with-tokens
(`10 * distinct < 7 * total`). -/
theorem C6_starter_gate (schema : PyDict) (es : List PyVal) (r : ContentResult)
    (starters : List String)
    (hme : pyGet schema "mainEntity" (PyVal.list []) = PyVal.list es)
    (h : validate_content schema = Except.ok r)
    (hst : startersOf (collectQuestions es) = Except.ok starters) :
    "Consider varying question starters for better diversity" ∈ r.suggestions ↔
      (3 ≤ es.length ∧ 10 * starters.dedup.length < 7 * starters.length) := by
  have hspec := validate_content_spec schema es r hme h
  rcases hspec.2 with ⟨sts, ans, hsts, hans, hsug⟩
  have hnotans : "Consider varying question starters for better diversity" ∉ ans := by
    intro hmem
    rcases answerSuggestions_shape es 0 ans hans _ hmem with ⟨j, hj⟩
    exact qmsg_ne_of_head j _ (by decide) hj.symm
  rw [hsug]
  unfold starterSuggestions at hsts
  by_cases hlen : 3 ≤ es.length
  · rw [if_pos hlen] at hsts
    cases hqw : questionWords es with
    | error m => rw [hqw] at hsts; cases hsts
    | ok ws =>
        rw [hqw] at hsts
        rw [hst] at hsts
        dsimp only at hsts
        by_cases hc : 10 * starters.dedup.length < 7 * starters.length
        · rw [if_pos hc] at hsts
          cases hsts
          simp [List.mem_append, hnotans, hlen, hc]
        · rw [if_neg hc] at hsts
          cases hsts
          simp [List.mem_append, hnotans, hlen, hc]
  · rw [if_neg hlen] at hsts
    cases hsts
    simp [List.mem_append, hnotans, hlen]

theorem C6_starter_gate_witness :
    "Consider varying question starters for better diversity" ∈
        (⟨[], [], ["Consider varying question starters for better diversity"]⟩ :
          ContentResult).suggestions ↔
      (3 ≤ exC6Entities.length ∧
        10 * (["What", "What"] : List String).dedup.length <
          7 * (["What", "What"] : List String).length) :=
  C6_starter_gate exC6 exC6Entities
    ⟨[], [], ["Consider varying question starters for better diversity"]⟩
    ["What", "What"] rfl rfl rfl


/-- C4 counterexample: an entity with no `@type` key still receives the
"@type must be 'Question'" issue (the source tests `entity.get('@type') !=
'Question'`, and `get` returns `None` for a missing key), refuting the claim
that the type-mismatch issue fires only when the field is present. -/
theorem C4_counterexample :
    pyLookup ([] : PyDict) "@type" = Option.none ∧
    qmsg 0 "@type must be 'Question'" ∈ (questionEntityChecks [] 0).issues :=
  ⟨rfl, by decide⟩

/-- C4 (amended): the "@type must be 'Question'" issue fires exactly when the
entity's `@type` value — with a missing key read as `None` — differs from
`"Question"`; in particular an entity missing `@type` receives both the
missing-required-field issue and the type-mismatch issue. -/
theorem C4_type_issue (fields : PyDict) (index : Nat) :
    (qmsg index "@type must be 'Question'" ∈ (questionEntityChecks fields index).issues ↔
      PyVal.eqStr (pyGet fields "@type" PyVal.none) "Question" = false) ∧
    (pyLookup fields "@type" = Option.none →
      qmsg index "Missing required field '@type'" ∈ (questionEntityChecks fields index).issues ∧
      qmsg index "@type must be 'Question'" ∈ (questionEntityChecks fields index).issues) := by
  have hnotmiss : qmsg index "@type must be 'Question'" ∉ missingFieldIssues fields index := by
    intro hmem
    rcases missingFieldIssues_shape fields index _ hmem with ⟨f, hf, hfm⟩
    have hc := strAppend_left_cancel hfm
    simp only [List.mem_cons, List.mem_singleton, List.not_mem_nil, or_false] at hf
    rcases hf with hf | hf | hf <;> (subst hf; exact absurd hc (by decide))
  have hnotname : qmsg index "@type must be 'Question'" ∉ (nameCheck fields index).issues := by
    intro hmem
    have hc := strAppend_left_cancel (nameCheck_issues_shape fields index _ hmem)
    exact absurd hc (by decide)
  have hnotansw : qmsg index "@type must be 'Question'" ∉ (answerCheck fields index).issues := by
    intro hmem
    rcases answerCheck_issues_shape fields index _ hmem with ⟨t, ht, htm⟩
    have hc := strAppend_left_cancel htm
    simp only [List.mem_cons, List.mem_singleton, List.not_mem_nil, or_false] at ht
    rcases ht with ht | ht | ht | ht <;> (subst ht; exact absurd hc (by decide))
  have hiff : qmsg index "@type must be 'Question'" ∈ (questionEntityChecks fields index).issues ↔
      PyVal.eqStr (pyGet fields "@type" PyVal.none) "Question" = false := by
    unfold questionEntityChecks
    dsimp only
    simp only [List.mem_append]
    constructor
    · rintro (((hm | hm) | hm) | hm)
      · exact absurd hm hnotmiss
      · unfold entityTypeIssues at hm
        split at hm
        · cases hm
        · rename_i hcond
          simpa using hcond
      · exact absurd hm hnotname
      · exact absurd hm hnotansw
    · intro heq
      refine Or.inl (Or.inl (Or.inr ?_))
      unfold entityTypeIssues
      rw [heq]
      simp
  refine ⟨hiff, ?_⟩
  intro habs
  constructor
  · unfold questionEntityChecks
    dsimp only
    simp only [List.mem_append]
    refine Or.inl (Or.inl (Or.inl ?_))
    unfold missingFieldIssues
    refine List.mem_map.mpr ⟨"@type", ?_, by rfl⟩
    refine List.mem_filter.mpr ⟨by simp, ?_⟩
    rw [habs]
    rfl
  · have hgetn : pyGet fields "@type" PyVal.none = PyVal.none := by
      unfold pyGet; rw [habs]; rfl
    rw [hiff, hgetn]
    rfl

theorem C4_type_issue_witness :
    qmsg 0 "Missing required field '@type'" ∈ (questionEntityChecks [] 0).issues ∧
    qmsg 0 "@type must be 'Question'" ∈ (questionEntityChecks [] 0).issues :=
  (C4_type_issue [] 0).2 rfl


/-- C5 counterexample: a non-mapping `mainEntity` element makes the structural
pass itself raise (the exception escapes `_validate_structure`); it is caught
only by `validate_schema`'s top-level handler, which records a generic
validation-error issue carrying no entity index — refuting the claim that the
structural pass records an index-tagged issue and does not crash. -/
theorem C5_counterexample :
    validate_structure exCrash =
      Except.error "TypeError: argument of type int is not iterable" ∧
    validate_schema exCrash =
      ⟨false, ["Validation error: TypeError: argument of type int is not iterable"], [], []⟩ :=
  ⟨rfl, rfl⟩

/-- C5 (amended): when some `mainEntity` element is not a mapping, the
structural pass raises an internal exception (discarding its partial result);
`validate_schema` catches it, appends the single generic
`"Validation error: ..."` issue (not tagged with the entity's index), sets
`valid` to `false`, and returns without running the remaining passes. -/
theorem C5_nonmapping_crash (schema : PyDict) (es : List PyVal)
    (hme : pyLookup schema "mainEntity" = some (PyVal.list es))
    (hbad : ∃ e ∈ es, e.isDict = false) :
    ∃ msg, validate_structure schema = Except.error msg ∧
      validate_schema schema = ⟨false, ["Validation error: " ++ msg], [], []⟩ := by
  rcases validateEntities_error es 0 hbad with ⟨msg, hent⟩
  have hstruct : validate_structure schema = Except.error msg := by
    unfold validate_structure
    rw [hme]
    cases es with
    | nil => rcases hbad with ⟨e, he, -⟩; cases he
    | cons a as =>
        dsimp only
        rw [hent]
  refine ⟨msg, hstruct, ?_⟩
  unfold validate_schema
  rw [hstruct]

theorem C5_nonmapping_crash_witness :
    ∃ msg, validate_structure exCrash = Except.error msg ∧
      validate_schema exCrash = ⟨false, ["Validation error: " ++ msg], [], []⟩ :=
  C5_nonmapping_crash exCrash [PyVal.int 5] rfl
    ⟨PyVal.int 5, List.mem_singleton.mpr rfl, rfl⟩


/-- C7 counterexample: on the wrong-`@type` short-circuit path (for instance
the empty document) `validate_with_google` returns `valid=false` with
`rich_results` left at its initial `true` and appends no eligibility warning —
refuting both the claimed equation `rich_results = valid AND count >= 3` and
the claim that exactly one informational warning is always appended. -/
theorem C7_counterexample :
    validate_with_google ([] : PyDict) =
      ⟨false, ["Schema type not supported for rich results"], [], true⟩ := rfl

/-- C7 (amended): when neither short-circuit triggers (`@type` equals
`"FAQPage"`, `len(mainEntity) >= 1`) and the entity loop completes without an
internal exception, `rich_results` equals `valid AND entity count >= 3` and
exactly one informational warning stating eligibility either way is appended;
the S4 instance (an otherwise fully valid 2-entity document) gives
`valid=true`, `rich_results=false` and the reduced-eligibility warning. -/
theorem C7_rich_results (schema : PyDict) (n : Nat) (es : List PyVal) (v : Bool)
    (iss : List String)
    (htype : PyVal.eqStr (pyGet schema "@type" PyVal.none) "FAQPage" = true)
    (hlen : pyLen (pyGet schema "mainEntity" (PyVal.list [])) = Except.ok n)
    (h1 : 1 ≤ n)
    (hiter : pyIter (pyGet schema "mainEntity" (PyVal.list [])) = Except.ok es)
    (hloop : googleLoop es 0 true [] = Except.ok (v, iss)) :
    (validate_with_google schema).rich_results
        = ((validate_with_google schema).valid && decide (3 ≤ n)) ∧
    (validate_with_google schema).warnings
        = (if ((validate_with_google schema).valid && decide (3 ≤ n)) = true
           then ["Schema is eligible for rich results"]
           else ["Schema may not be eligible for rich results"]) := by
  have hn1 : ¬ n < 1 := by omega
  have hres : validate_with_google schema =
      (if v && decide (3 ≤ n) then
        (⟨v, iss, ["Schema is eligible for rich results"], true⟩ : GoogleReport)
      else ⟨v, iss, ["Schema may not be eligible for rich results"], false⟩) := by
    unfold validate_with_google
    rw [htype]
    simp only [Bool.not_true, Bool.false_eq_true, if_false]
    rw [hlen]
    dsimp only
    rw [if_neg hn1, hiter]
    dsimp only
    rw [hloop]
  rw [hres]
  by_cases hv : (v && decide (3 ≤ n)) = true
  · rw [if_pos hv]
    exact ⟨hv.symm, by rw [if_pos hv]⟩
  · rw [if_neg hv]
    have hv' : (v && decide (3 ≤ n)) = false := by
      cases hb : v && decide (3 ≤ n)
      · rfl
      · exact absurd hb hv
    exact ⟨hv'.symm, by rw [if_neg hv]⟩

theorem C7_rich_results_witness :
    (validate_with_google exGoogle2).rich_results
        = ((validate_with_google exGoogle2).valid && decide (3 ≤ 2)) ∧
    (validate_with_google exGoogle2).warnings
        = (if ((validate_with_google exGoogle2).valid && decide (3 ≤ 2)) = true
           then ["Schema is eligible for rich results"]
           else ["Schema may not be eligible for rich results"]) :=
  C7_rich_results exGoogle2 2 exGoogle2Entities true [] rfl rfl (by omega) rfl rfl


/-- C8: the length-boundary warnings use strict comparison — for a present,
non-empty (post-strip) string name, `len < 10` warns "very short" and
`len > 200` warns "very long" (so exactly 10 and exactly 200 warn neither);
likewise answer text below 20 or above 1000 characters; the name warning and
the answer warning fire independently on the same entity. -/
theorem C8_length_boundaries (fields : PyDict) (index : Nat) (s t : String) (af : PyDict)
    (hn : pyLookup fields "name" = some (PyVal.str s)) (hs : ¬ pyStrip s = "")
    (ha : pyLookup fields "acceptedAnswer" = some (PyVal.dict af))
    (ht : pyLookup af "text" = some (PyVal.str t)) (htt : ¬ pyStrip t = "") :
    ((qmsg index "Question is very short" ∈ (questionEntityChecks fields index).warnings
        ↔ s.length < 10) ∧
     (qmsg index "Question is very long" ∈ (questionEntityChecks fields index).warnings
        ↔ s.length > 200)) ∧
    ((qmsg index "Answer is very short" ∈ (questionEntityChecks fields index).warnings
        ↔ t.length < 20) ∧
     (qmsg index "Answer is very long" ∈ (questionEntityChecks fields index).warnings
        ↔ t.length > 1000)) := by
  have hname : nameCheck fields index =
      (⟨[], if s.length < 10 then [qmsg index "Question is very short"]
            else if s.length > 200 then [qmsg index "Question is very long"]
            else []⟩ : PassSW) := by
    unfold nameCheck
    rw [hn]
    dsimp only
    rw [if_neg hs]
    by_cases h10 : s.length < 10
    · rw [if_pos h10, if_pos h10]
    · rw [if_neg h10, if_neg h10]
      by_cases h200 : s.length > 200
      · rw [if_pos h200, if_pos h200]
      · rw [if_neg h200, if_neg h200]
  have hans : answerCheck fields index =
      (⟨(if PyVal.eqStr (pyGet af "@type" PyVal.none) "Answer" then []
         else [qmsg index "acceptedAnswer @type must be 'Answer'"]),
        if t.length < 20 then [qmsg index "Answer is very short"]
        else if t.length > 1000 then [qmsg index "Answer is very long"]
        else []⟩ : PassSW) := by
    unfold answerCheck
    rw [ha]
    dsimp only
    rw [ht]
    dsimp only
    rw [if_neg htt]
    by_cases h20 : t.length < 20
    · rw [if_pos h20, if_pos h20]
    · rw [if_neg h20, if_neg h20]
      by_cases h1000 : t.length > 1000
      · rw [if_pos h1000, if_pos h1000]
      · rw [if_neg h1000, if_neg h1000]
  have hw : (questionEntityChecks fields index).warnings =
      (if s.length < 10 then [qmsg index "Question is very short"]
       else if s.length > 200 then [qmsg index "Question is very long"] else []) ++
      (if t.length < 20 then [qmsg index "Answer is very short"]
       else if t.length > 1000 then [qmsg index "Answer is very long"] else []) := by
    unfold questionEntityChecks
    rw [hname, hans]
  have d1 : qmsg index "Question is very short" ≠ qmsg index "Question is very long" :=
    qmsg_ne_qmsg index (by decide)
  have d2 : qmsg index "Question is very short" ≠ qmsg index "Answer is very short" :=
    qmsg_ne_qmsg index (by decide)
  have d3 : qmsg index "Question is very short" ≠ qmsg index "Answer is very long" :=
    qmsg_ne_qmsg index (by decide)
  have d4 : qmsg index "Question is very long" ≠ qmsg index "Answer is very short" :=
    qmsg_ne_qmsg index (by decide)
  have d5 : qmsg index "Question is very long" ≠ qmsg index "Answer is very long" :=
    qmsg_ne_qmsg index (by decide)
  have d6 : qmsg index "Answer is very short" ≠ qmsg index "Answer is very long" :=
    qmsg_ne_qmsg index (by decide)
  rw [hw]
  refine ⟨⟨?_, ?_⟩, ?_, ?_⟩ <;>
    (by_cases h10 : s.length < 10 <;> by_cases h200 : s.length > 200 <;>
     by_cases h20 : t.length < 20 <;> by_cases h1000 : t.length > 1000 <;>
     simp [h10, h200, h20, h1000, d1, d2, d3, d4, d5, d6,
       d1.symm, d2.symm, d3.symm, d4.symm, d5.symm, d6.symm] <;> omega)

theorem C8_length_boundaries_witness :
    ((qmsg 0 "Question is very short" ∈ (questionEntityChecks exC8Fields 0).warnings
        ↔ "What?".length < 10) ∧
     (qmsg 0 "Question is very long" ∈ (questionEntityChecks exC8Fields 0).warnings
        ↔ "What?".length > 200)) ∧
    ((qmsg 0 "Answer is very short" ∈ (questionEntityChecks exC8Fields 0).warnings
        ↔ "A short answer, thirty chars.x".length < 20) ∧
     (qmsg 0 "Answer is very long" ∈ (questionEntityChecks exC8Fields 0).warnings
        ↔ "A short answer, thirty chars.x".length > 1000)) :=
  C8_length_boundaries exC8Fields 0 "What?" "A short answer, thirty chars.x" exC8Answer
    rfl (by decide) rfl rfl (by decide)

end FaqVal
